import Mathlib

/-!
Shallow embedding of the SwiftText `CHTMLParser` bridge
(`Sources/CHTMLParser/HTMLParserBridge.c` together with
`Sources/CHTMLParser/include/DTHTMLParser-Bridging-Header.h` and
`Sources/CHTMLParser/include/HTMLParserOptions.h`).

The C file owns one piece of mutable state, the static registration slot
`static htmlparser_error_callback _error_callback = NULL;`, and exposes three
functions: `htmlparser_register_error_callback` (store a callback pointer in
the slot), `htmlparser_error_sax_handler` (format a variadic message with
`vsnprintf` and forward it to the registered callback), and
`htmlparser_set_error_handler` (write the handler's address into the `error`
slot of a libxml2 SAX handler table). The embedding threads the static slot
explicitly through every operation as a `BridgeState` value, models C pointers
that may be `NULL` as `Option` values, and records each invocation of the
registered callback as an `Event`.
-/

namespace HTMLParserBridge

/-- Opaque non-null context pointer values (the `void *ctx` argument); a
possibly-null context pointer is `Option Ctx`, with `none` for `NULL`. -/
abbrev Ctx := Nat

/-- Values of the function-pointer type `htmlparser_error_callback`
(`void (*)(void *ctx, const char *msg)`), identified abstractly; a
possibly-null callback pointer is `Option CallbackId`, with `none` for
`NULL`. -/
abbrev CallbackId := Nat

/-- Function-pointer values that can occupy a SAX handler table slot. The
bridge's own notification entry point `htmlparser_error_sax_handler` is the
one distinguished address; `other n` stands for any other function address. -/
inductive FnPtr where
  | error_sax_handler_fn : FnPtr
  | other : Nat → FnPtr
deriving DecidableEq

/-- The bridge's process-wide mutable state: the single static registration
slot `static htmlparser_error_callback _error_callback = NULL;` of
`HTMLParserBridge.c`, `none` modelling `NULL`. -/
structure BridgeState where
  error_callback : Option CallbackId
deriving DecidableEq

/-- One observable effect of the bridge: an invocation
`_error_callback(ctx, formattedMsg)` of the registered callback, recording
which callback was called, the context pointer it received and the full
character contents of the message buffer passed to it (terminator
included). -/
inductive Event where
  | invoke : CallbackId → Ctx → List Char → Event
deriving DecidableEq

/-- C function `htmlparser_register_error_callback(callback)`: the body is the
single assignment `_error_callback = callback;`, overwriting the registration
slot with the given (possibly null) callback pointer. -/
def htmlparser_register_error_callback (callback : Option CallbackId)
    (_st : BridgeState) : BridgeState :=
  BridgeState.mk callback

/-- Model of the C library function `vsnprintf(buf, size, fmt, args)`. The
format template and its variadic arguments enter as their expansion:
`formatted = some s` when formatting that pair succeeds and expands to the
character list `s`, and `formatted = none` when formatting fails (C99 lets
`vsnprintf` return a negative value then). The result pairs the return value
of `vsnprintf` — the length of the full expansion, independently of `size`,
or a negative value on failure — with the characters the call writes into a
buffer of capacity `size`: nothing when `size = 0`, otherwise at most
`size - 1` characters of the expansion followed by the null terminator. -/
def vsnprintf (size : Nat) (formatted : Option (List Char)) : Int × List Char :=
  match formatted with
  | none => (-1, [])
  | some s =>
      ((s.length : Int),
        if size = 0 then [] else s.take (size - 1) ++ [Char.ofNat 0])

/-- C function `htmlparser_error_sax_handler(void *ctx, const char *msg, ...)`
of `HTMLParserBridge.c`. The variadic pair `(msg, args...)` enters as its
expansion `fmt` (see `vsnprintf`), and `allocOk` is whether the
`malloc((length + 1) * sizeof(char))` call succeeds. Following the C body:
return at once when `ctx` or `_error_callback` is `NULL`; compute `length`
with a zero-sized `vsnprintf` pass; return when `length < 0`; return when the
allocation fails; format into the `length + 1`-byte buffer; call the
registered callback with the buffer; free it. The result is the state after
the call and the list of callback invocations the call performs. -/
def htmlparser_error_sax_handler (ctx : Option Ctx) (fmt : Option (List Char))
    (allocOk : Bool) (st : BridgeState) : BridgeState × List Event :=
  match ctx, st.error_callback with
  | some c, some cb =>
      let length := (vsnprintf 0 fmt).1
      if length < 0 then (st, [])
      else if allocOk = false then (st, [])
      else
        let formattedMsg := (vsnprintf (length.toNat + 1) fmt).2
        (st, [Event.invoke cb c formattedMsg])
  | _, _ => (st, [])

/-- Model of libxml2's `struct _xmlSAXHandler` (aliased `htmlSAXHandler`), the
engine-owned handler table whose address `htmlparser_set_error_handler`
receives. Every callback slot holds a nullable function pointer; `initFlag`
models the `initialized` magic field (an unsigned int) and `privateData` the
`_private` application-data pointer. -/
structure htmlSAXHandler where
  internalSubset : Option FnPtr
  isStandalone : Option FnPtr
  hasInternalSubset : Option FnPtr
  hasExternalSubset : Option FnPtr
  resolveEntity : Option FnPtr
  getEntity : Option FnPtr
  entityDecl : Option FnPtr
  notationDecl : Option FnPtr
  attributeDecl : Option FnPtr
  elementDecl : Option FnPtr
  unparsedEntityDecl : Option FnPtr
  setDocumentLocator : Option FnPtr
  startDocument : Option FnPtr
  endDocument : Option FnPtr
  startElement : Option FnPtr
  endElement : Option FnPtr
  reference : Option FnPtr
  characters : Option FnPtr
  ignorableWhitespace : Option FnPtr
  processingInstruction : Option FnPtr
  comment : Option FnPtr
  warning : Option FnPtr
  error : Option FnPtr
  fatalError : Option FnPtr
  getParameterEntity : Option FnPtr
  cdataBlock : Option FnPtr
  externalSubset : Option FnPtr
  initFlag : Nat
  privateData : Option Ctx
  startElementNs : Option FnPtr
  endElementNs : Option FnPtr
  serror : Option FnPtr
deriving DecidableEq

/-- C function `htmlparser_set_error_handler(htmlSAXHandlerPtr sax_handler)`:
when the pointer is non-null it executes
`sax_handler->error = (errorSAXFunc)htmlparser_error_sax_handler;`, and when
it is `NULL` the body is skipped. The pointer is modelled by passing the
pointee in and out as `Option htmlSAXHandler`; the bridge state is threaded
through to express what the call does (and does not do) to it. -/
def htmlparser_set_error_handler (sax_handler : Option htmlSAXHandler)
    (st : BridgeState) : BridgeState × Option htmlSAXHandler :=
  match sax_handler with
  | none => (st, none)
  | some h => (st, some { h with error := some FnPtr.error_sax_handler_fn })

/-- The enum constant `HTMLParserOptionRecover = 1 << 0` of
`HTMLParserOptions.h`; the enum's underlying type `int32_t` is modelled as
`Int` (all seven values fit far below `2 ^ 31`). -/
def HTMLParserOptionRecover : Int := 1 <<< 0

/-- The enum constant `HTMLParserOptionNoError = 1 << 1`. -/
def HTMLParserOptionNoError : Int := 1 <<< 1

/-- The enum constant `HTMLParserOptionNoWarning = 1 << 2`. -/
def HTMLParserOptionNoWarning : Int := 1 <<< 2

/-- The enum constant `HTMLParserOptionPedantic = 1 << 3`. -/
def HTMLParserOptionPedantic : Int := 1 <<< 3

/-- The enum constant `HTMLParserOptionNoBlanks = 1 << 4`. -/
def HTMLParserOptionNoBlanks : Int := 1 <<< 4

/-- The enum constant `HTMLParserOptionNoNet = 1 << 5`. -/
def HTMLParserOptionNoNet : Int := 1 <<< 5

/-- The enum constant `HTMLParserOptionCompact = 1 << 6`. -/
def HTMLParserOptionCompact : Int := 1 <<< 6

/-- The seven `HTMLParserOptions` flags in declaration order, as a function
from `Fin 7`. -/
def optionFlag : Fin 7 → Int :=
  ![HTMLParserOptionRecover, HTMLParserOptionNoError, HTMLParserOptionNoWarning,
    HTMLParserOptionPedantic, HTMLParserOptionNoBlanks, HTMLParserOptionNoNet,
    HTMLParserOptionCompact]

/-- The `int32_t` value a subset of the seven option flags combines to by
bitwise or, the subset given by its membership function. -/
def optionsCombine (s : Fin 7 → Bool) : Int :=
  (List.finRange 7).foldr
    (fun i acc => Int.lor (if s i then optionFlag i else 0) acc) 0

/-- Both `vsnprintf` passes of the handler on a successfully formatting
template: the zero-sized pass returns the exact expanded length, and the pass
into the exactly sized buffer writes the whole expansion plus the null
terminator, untruncated. -/
theorem vsnprintf_exact (s : List Char) :
    (vsnprintf 0 (some s)).1 = (s.length : Int) ∧
    (vsnprintf (((vsnprintf 0 (some s)).1).toNat + 1) (some s)).2 =
      s ++ [Char.ofNat 0] := by
  refine ⟨rfl, ?_⟩
  simp [vsnprintf]

/-- C1: with a non-null context, a registered callback and a template plus
arguments that format successfully (to the expansion `s`) and a successful
allocation, `htmlparser_error_sax_handler` invokes the registered callback
exactly once, delivering exactly the full expansion followed by the null
terminator — no truncation, the buffer being sized from the exact length the
zero-output pass computed, plus one byte. -/
theorem error_sax_handler_delivers_exact (st : BridgeState) (cb : CallbackId)
    (c : Ctx) (s : List Char) (h : st.error_callback = some cb) :
    htmlparser_error_sax_handler (some c) (some s) true st =
      (st, [Event.invoke cb c (s ++ [Char.ofNat 0])]) := by
  simp [htmlparser_error_sax_handler, h, vsnprintf]

/-- C1 witness: a concrete run with context 7, registered callback 1 and a
template expanding to "ab" delivers exactly ['a', 'b', NUL]. -/
theorem error_sax_handler_delivers_exact_witness :
    htmlparser_error_sax_handler (some 7) (some ['a', 'b']) true
        (BridgeState.mk (some 1)) =
      (BridgeState.mk (some 1),
        [Event.invoke 1 7 (['a', 'b'] ++ [Char.ofNat 0])]) :=
  error_sax_handler_delivers_exact (BridgeState.mk (some 1)) 1 7 ['a', 'b'] rfl

/-- C2: a call to `htmlparser_error_sax_handler` with a null context, or with
nothing in the registration slot, is a silent no-op: the state is unchanged
and no callback is invoked, whatever the format template, its arguments and
the allocation outcome — in particular a null context suppresses the callback
even when one is registered. -/
theorem error_sax_handler_noop (ctx : Option Ctx) (fmt : Option (List Char))
    (allocOk : Bool) (st : BridgeState)
    (h : ctx = none ∨ st.error_callback = none) :
    htmlparser_error_sax_handler ctx fmt allocOk st = (st, []) := by
  rcases h with h | h
  · subst h
    cases st.error_callback <;> rfl
  · cases ctx <;> simp [htmlparser_error_sax_handler, h]

/-- C2 witness: with callback 1 registered, a notification with a null context
is a no-op. -/
theorem error_sax_handler_noop_witness :
    htmlparser_error_sax_handler none (some ['a']) true
        (BridgeState.mk (some 1)) = (BridgeState.mk (some 1), []) :=
  error_sax_handler_noop none (some ['a']) true (BridgeState.mk (some 1))
    (Or.inl rfl)

/-- C4: when the zero-output formatting pass returns a negative length, or
when the buffer allocation fails, `htmlparser_error_sax_handler` aborts
silently: the state is unchanged and no callback is invoked, for every
context and registration state. -/
theorem error_sax_handler_abort_silent (c : Ctx) (fmt : Option (List Char))
    (allocOk : Bool) (st : BridgeState)
    (h : (vsnprintf 0 fmt).1 < 0 ∨ allocOk = false) :
    htmlparser_error_sax_handler (some c) fmt allocOk st = (st, []) := by
  cases hcb : st.error_callback with
  | none => simp [htmlparser_error_sax_handler, hcb]
  | some cb =>
      rcases h with h | h
      · simp [htmlparser_error_sax_handler, hcb, h]
      · subst h
        simp [htmlparser_error_sax_handler, hcb]

/-- C4 witness: with callback 1 registered and non-null context 3, a template
whose formatting fails (negative computed length) produces no invocation and
leaves the state unchanged. -/
theorem error_sax_handler_abort_silent_witness :
    htmlparser_error_sax_handler (some 3) none true (BridgeState.mk (some 1)) =
      (BridgeState.mk (some 1), []) :=
  error_sax_handler_abort_silent 3 none true (BridgeState.mk (some 1))
    (Or.inl (by decide))

/-- C7: with a non-null context, a registered callback and a template that
expands to the zero-length message, the callback is still invoked exactly
once, receiving the empty null-terminated string — the zero-length case is
neither a no-op nor a formatting error. -/
theorem error_sax_handler_empty_message (st : BridgeState) (cb : CallbackId)
    (c : Ctx) (h : st.error_callback = some cb) :
    htmlparser_error_sax_handler (some c) (some []) true st =
      (st, [Event.invoke cb c [Char.ofNat 0]]) := by
  simp [htmlparser_error_sax_handler, h, vsnprintf]

/-- C7 witness: a concrete run with the empty expansion delivers exactly one
invocation carrying the lone null terminator. -/
theorem error_sax_handler_empty_message_witness :
    htmlparser_error_sax_handler (some 2) (some []) true
        (BridgeState.mk (some 5)) =
      (BridgeState.mk (some 5), [Event.invoke 5 2 [Char.ofNat 0]]) :=
  error_sax_handler_empty_message (BridgeState.mk (some 5)) 5 2 rfl

/-- Every callback invocation a handler call performs goes to the callback the
registration slot holds at the time of the call, with the call's context. -/
theorem error_sax_handler_events_sub (c : Ctx) (fmt : Option (List Char))
    (allocOk : Bool) (st : BridgeState) (cb : CallbackId)
    (h : st.error_callback = some cb) :
    ∀ e ∈ (htmlparser_error_sax_handler (some c) fmt allocOk st).2,
      ∃ m, e = Event.invoke cb c m := by
  intro e he
  cases fmt with
  | none => simp [htmlparser_error_sax_handler, h, vsnprintf] at he
  | some s =>
      cases allocOk with
      | false => simp [htmlparser_error_sax_handler, h, vsnprintf] at he
      | true =>
          have hlen : ¬ ((s.length : Int) < 0) := by omega
          simp [htmlparser_error_sax_handler, h, vsnprintf, hlen] at he
          exact ⟨_, he⟩

/-- C3: registration is last-writer-wins over the single process-wide slot.
After registering `c1` and then `c2`, the slot holds `c2`; every invocation a
subsequent notification performs goes to `c2`, and none goes to `c1`; and a
further registration of the null reference empties the slot, after which a
notification invokes no callback at all. -/
theorem register_last_writer_wins (c1 c2 : CallbackId) (st : BridgeState)
    (ctx : Ctx) (fmt : Option (List Char)) (allocOk : Bool) (hne : c1 ≠ c2) :
    (htmlparser_register_error_callback (some c2)
        (htmlparser_register_error_callback (some c1) st)).error_callback =
      some c2 ∧
    (∀ e ∈ (htmlparser_error_sax_handler (some ctx) fmt allocOk
          (htmlparser_register_error_callback (some c2)
            (htmlparser_register_error_callback (some c1) st))).2,
        ∃ m, e = Event.invoke c2 ctx m) ∧
    (∀ m, Event.invoke c1 ctx m ∉
        (htmlparser_error_sax_handler (some ctx) fmt allocOk
          (htmlparser_register_error_callback (some c2)
            (htmlparser_register_error_callback (some c1) st))).2) ∧
    (htmlparser_register_error_callback none
        (htmlparser_register_error_callback (some c2)
          (htmlparser_register_error_callback (some c1) st))).error_callback =
      none ∧
    (htmlparser_error_sax_handler (some ctx) fmt allocOk
        (htmlparser_register_error_callback none
          (htmlparser_register_error_callback (some c2)
            (htmlparser_register_error_callback (some c1) st)))).2 = [] := by
  refine ⟨rfl, error_sax_handler_events_sub ctx fmt allocOk _ c2 rfl, ?_, rfl, rfl⟩
  intro m hm
  obtain ⟨m', hm'⟩ :=
    error_sax_handler_events_sub ctx fmt allocOk _ c2 rfl _ hm
  injection hm' with h1 _ _
  exact hne h1

/-- C3 witness: a concrete run registering callback 1 then callback 2 routes a
notification only to 2, and a final null registration disables forwarding. -/
theorem register_last_writer_wins_witness :
    (htmlparser_register_error_callback (some 2)
        (htmlparser_register_error_callback (some 1) (BridgeState.mk none))).error_callback =
      some 2 ∧
    (∀ e ∈ (htmlparser_error_sax_handler (some 0) (some ['x']) true
          (htmlparser_register_error_callback (some 2)
            (htmlparser_register_error_callback (some 1) (BridgeState.mk none)))).2,
        ∃ m, e = Event.invoke 2 0 m) ∧
    (∀ m, Event.invoke 1 0 m ∉
        (htmlparser_error_sax_handler (some 0) (some ['x']) true
          (htmlparser_register_error_callback (some 2)
            (htmlparser_register_error_callback (some 1) (BridgeState.mk none)))).2) ∧
    (htmlparser_register_error_callback none
        (htmlparser_register_error_callback (some 2)
          (htmlparser_register_error_callback (some 1) (BridgeState.mk none)))).error_callback =
      none ∧
    (htmlparser_error_sax_handler (some 0) (some ['x']) true
        (htmlparser_register_error_callback none
          (htmlparser_register_error_callback (some 2)
            (htmlparser_register_error_callback (some 1) (BridgeState.mk none))))).2 = [] :=
  register_last_writer_wins 1 2 (BridgeState.mk none) 0 (some ['x']) true
    (by decide)

/-- C5: `htmlparser_set_error_handler` is a no-op on a null table pointer, and
on a non-null table it sets the table's `error` slot to the address of
`htmlparser_error_sax_handler`, the bridge's notification entry point cast to
the engine's `errorSAXFunc` convention. -/
theorem set_error_handler_sets_error_slot (st : BridgeState) :
    (htmlparser_set_error_handler none st).2 = none ∧
    ∀ h : htmlSAXHandler, ∃ g : htmlSAXHandler,
      (htmlparser_set_error_handler (some h) st).2 = some g ∧
      g.error = some FnPtr.error_sax_handler_fn :=
  ⟨rfl, fun _ => ⟨_, rfl, rfl⟩⟩

/-- C6: installing the handler twice into the same table leaves the table in
the same state as installing it once — the error slot points at the same
notification entry point, with no cumulative effect, also through a null
table pointer. -/
theorem set_error_handler_idempotent (t : Option htmlSAXHandler)
    (st st' : BridgeState) :
    (htmlparser_set_error_handler
        (htmlparser_set_error_handler t st).2 st').2 =
      (htmlparser_set_error_handler t st).2 := by
  cases t <;> rfl

/-- C8: `htmlparser_set_error_handler` mutates only the `error` slot of the
engine-owned table: the resulting table has the notification entry point in
its `error` slot and agrees with the input table on all 31 other fields. The
other two operations never receive or return a table, so installation is the
only write this component performs on engine-owned state. -/
theorem set_error_handler_frame (h : htmlSAXHandler) (st : BridgeState)
    (g : htmlSAXHandler)
    (hg : (htmlparser_set_error_handler (some h) st).2 = some g) :
    g.error = some FnPtr.error_sax_handler_fn ∧
    g.internalSubset = h.internalSubset ∧
    g.isStandalone = h.isStandalone ∧
    g.hasInternalSubset = h.hasInternalSubset ∧
    g.hasExternalSubset = h.hasExternalSubset ∧
    g.resolveEntity = h.resolveEntity ∧
    g.getEntity = h.getEntity ∧
    g.entityDecl = h.entityDecl ∧
    g.notationDecl = h.notationDecl ∧
    g.attributeDecl = h.attributeDecl ∧
    g.elementDecl = h.elementDecl ∧
    g.unparsedEntityDecl = h.unparsedEntityDecl ∧
    g.setDocumentLocator = h.setDocumentLocator ∧
    g.startDocument = h.startDocument ∧
    g.endDocument = h.endDocument ∧
    g.startElement = h.startElement ∧
    g.endElement = h.endElement ∧
    g.reference = h.reference ∧
    g.characters = h.characters ∧
    g.ignorableWhitespace = h.ignorableWhitespace ∧
    g.processingInstruction = h.processingInstruction ∧
    g.comment = h.comment ∧
    g.warning = h.warning ∧
    g.fatalError = h.fatalError ∧
    g.getParameterEntity = h.getParameterEntity ∧
    g.cdataBlock = h.cdataBlock ∧
    g.externalSubset = h.externalSubset ∧
    g.initFlag = h.initFlag ∧
    g.privateData = h.privateData ∧
    g.startElementNs = h.startElementNs ∧
    g.endElementNs = h.endElementNs ∧
    g.serror = h.serror := by
  injection hg with hg'
  subst hg'
  exact ⟨rfl, rfl, rfl, rfl, rfl, rfl, rfl, rfl, rfl, rfl, rfl, rfl, rfl, rfl,
    rfl, rfl, rfl, rfl, rfl, rfl, rfl, rfl, rfl, rfl, rfl, rfl, rfl, rfl, rfl,
    rfl, rfl, rfl⟩

/-- A concrete all-null SAX handler table, used to instantiate the frame
property of the installation entry point. -/
def sampleSAX : htmlSAXHandler :=
  ⟨none, none, none, none, none, none, none, none, none, none, none, none,
    none, none, none, none, none, none, none, none, none, none, none, none,
    none, none, none, 0, none, none, none, none⟩

/-- The table `sampleSAX` after the bridge's handler has been installed. -/
def sampleSAXInstalled : htmlSAXHandler :=
  { sampleSAX with error := some FnPtr.error_sax_handler_fn }

/-- C8 witness: installing into the concrete all-null table yields a table
with the notification entry point in the error slot and every other field
unchanged. -/
theorem set_error_handler_frame_witness :
    sampleSAXInstalled.error = some FnPtr.error_sax_handler_fn ∧
    sampleSAXInstalled.internalSubset = sampleSAX.internalSubset ∧
    sampleSAXInstalled.isStandalone = sampleSAX.isStandalone ∧
    sampleSAXInstalled.hasInternalSubset = sampleSAX.hasInternalSubset ∧
    sampleSAXInstalled.hasExternalSubset = sampleSAX.hasExternalSubset ∧
    sampleSAXInstalled.resolveEntity = sampleSAX.resolveEntity ∧
    sampleSAXInstalled.getEntity = sampleSAX.getEntity ∧
    sampleSAXInstalled.entityDecl = sampleSAX.entityDecl ∧
    sampleSAXInstalled.notationDecl = sampleSAX.notationDecl ∧
    sampleSAXInstalled.attributeDecl = sampleSAX.attributeDecl ∧
    sampleSAXInstalled.elementDecl = sampleSAX.elementDecl ∧
    sampleSAXInstalled.unparsedEntityDecl = sampleSAX.unparsedEntityDecl ∧
    sampleSAXInstalled.setDocumentLocator = sampleSAX.setDocumentLocator ∧
    sampleSAXInstalled.startDocument = sampleSAX.startDocument ∧
    sampleSAXInstalled.endDocument = sampleSAX.endDocument ∧
    sampleSAXInstalled.startElement = sampleSAX.startElement ∧
    sampleSAXInstalled.endElement = sampleSAX.endElement ∧
    sampleSAXInstalled.reference = sampleSAX.reference ∧
    sampleSAXInstalled.characters = sampleSAX.characters ∧
    sampleSAXInstalled.ignorableWhitespace = sampleSAX.ignorableWhitespace ∧
    sampleSAXInstalled.processingInstruction = sampleSAX.processingInstruction ∧
    sampleSAXInstalled.comment = sampleSAX.comment ∧
    sampleSAXInstalled.warning = sampleSAX.warning ∧
    sampleSAXInstalled.fatalError = sampleSAX.fatalError ∧
    sampleSAXInstalled.getParameterEntity = sampleSAX.getParameterEntity ∧
    sampleSAXInstalled.cdataBlock = sampleSAX.cdataBlock ∧
    sampleSAXInstalled.externalSubset = sampleSAX.externalSubset ∧
    sampleSAXInstalled.initFlag = sampleSAX.initFlag ∧
    sampleSAXInstalled.privateData = sampleSAX.privateData ∧
    sampleSAXInstalled.startElementNs = sampleSAX.startElementNs ∧
    sampleSAXInstalled.endElementNs = sampleSAX.endElementNs ∧
    sampleSAXInstalled.serror = sampleSAX.serror :=
  set_error_handler_frame sampleSAX (BridgeState.mk none) sampleSAXInstalled rfl

/-- C9: neither notification nor table installation writes the registration
slot — after any call to `htmlparser_error_sax_handler` or to
`htmlparser_set_error_handler` the bridge state, and with it the registered
callback reference, is exactly what it was before the call. Only
`htmlparser_register_error_callback` writes that slot. -/
theorem registration_slot_frame (ctx : Option Ctx) (fmt : Option (List Char))
    (allocOk : Bool) (st : BridgeState) (t : Option htmlSAXHandler) :
    (htmlparser_error_sax_handler ctx fmt allocOk st).1 = st ∧
    (htmlparser_set_error_handler t st).1 = st := by
  constructor
  · cases ctx with
    | none => cases st.error_callback <;> rfl
    | some c =>
        cases hcb : st.error_callback with
        | none => simp [htmlparser_error_sax_handler, hcb]
        | some cb =>
            cases fmt with
            | none => simp [htmlparser_error_sax_handler, hcb, vsnprintf]
            | some s =>
                have hlen : ¬ ((s.length : Int) < 0) := by omega
                cases allocOk <;>
                  simp [htmlparser_error_sax_handler, hcb, vsnprintf, hlen]
  · cases t <;> rfl

set_option maxRecDepth 10000

set_option maxHeartbeats 1000000

/-- C10: the seven `HTMLParserOptions` constants have the exact values 1, 2,
4, 8, 16, 32, 64; each equals the power of two matching its position, distinct
pairs are disjoint as bit masks (their bitwise and is 0), and distinct subsets
of the flags combine by bitwise or into distinct `int32` values. -/
theorem options_flags_spec :
    (HTMLParserOptionRecover = 1 ∧ HTMLParserOptionNoError = 2 ∧
      HTMLParserOptionNoWarning = 4 ∧ HTMLParserOptionPedantic = 8 ∧
      HTMLParserOptionNoBlanks = 16 ∧ HTMLParserOptionNoNet = 32 ∧
      HTMLParserOptionCompact = 64) ∧
    (∀ i : Fin 7, optionFlag i = 2 ^ i.val) ∧
    (∀ i j : Fin 7, i ≠ j → Int.land (optionFlag i) (optionFlag j) = 0) ∧
    (∀ s t : Fin 7 → Bool, optionsCombine s = optionsCombine t → s = t) :=
  ⟨by decide, by decide, by decide, by decide⟩

end HTMLParserBridge
